import Mathlib

namespace Pluxo

/-! Shallow embedding of the PLUXO combined server (src/main.py).  Monetary
values are exact rationals, the balances document is a partial map from
username to stored balance, the stock document is a list of products, and the
games document is a record of four lists.  Randomness (dice rolls, blackjack
scores) is passed in as explicit arguments, and each operation returns its
response together with the state it persists. -/

/-- Two-decimal money rounding: `as_money` in main.py (`round(float(value), 2)`),
modelled on exact rationals, rounding to the nearest cent. -/
def as_money (value : ℚ) : ℚ := ((round (value * 100) : ℤ) : ℚ) / 100

/-- A rational is a money value when it is a whole number of cents,
equivalently a fixed point of `as_money`. -/
def isMoney (q : ℚ) : Prop := as_money q = q

instance : DecidablePred isMoney :=
fun q => inferInstanceAs (Decidable (as_money q = q))

theorem as_money_int_div (k : ℤ) : as_money ((k : ℚ) / 100) = (k : ℚ) / 100 := by
  unfold as_money
  rw [div_mul_cancel₀ _ (by norm_num : (100 : ℚ) ≠ 0), round_intCast]

theorem isMoney_as_money (q : ℚ) : isMoney (as_money q) :=
  as_money_int_div (round (q * 100))

theorem isMoney_iff {q : ℚ} : isMoney q ↔ ∃ k : ℤ, q = (k : ℚ) / 100 := by
  constructor
  · intro h
    exact ⟨round (q * 100), h.symm⟩
  · rintro ⟨k, rfl⟩
    exact as_money_int_div k

theorem isMoney.add {q r : ℚ} (hq : isMoney q) (hr : isMoney r) : isMoney (q + r) := by
  rcases isMoney_iff.mp hq with ⟨a, rfl⟩
  rcases isMoney_iff.mp hr with ⟨b, rfl⟩
  exact isMoney_iff.mpr ⟨a + b, by push_cast; ring⟩

theorem isMoney.sub {q r : ℚ} (hq : isMoney q) (hr : isMoney r) : isMoney (q - r) := by
  rcases isMoney_iff.mp hq with ⟨a, rfl⟩
  rcases isMoney_iff.mp hr with ⟨b, rfl⟩
  exact isMoney_iff.mpr ⟨a - b, by push_cast; ring⟩

theorem isMoney.mul_two {q : ℚ} (hq : isMoney q) : isMoney (q * 2) := by
  rcases isMoney_iff.mp hq with ⟨a, rfl⟩
  exact isMoney_iff.mpr ⟨a * 2, by push_cast; ring⟩

/-- On a money value, `as_money` is the identity. -/
theorem as_money_eq_self {q : ℚ} (h : isMoney q) : as_money q = q := h

/-- Python `str.strip()`: drop leading and trailing whitespace (structural
model, so that concrete instances reduce). -/
def sTrim (s : String) : String :=
  ⟨((s.data.dropWhile Char.isWhitespace).reverse.dropWhile Char.isWhitespace).reverse⟩

/-- Python `str.lower()` (ASCII model). -/
def sToLower (s : String) : String := ⟨s.data.map Char.toLower⟩

/-- `.lower().strip()` username normalisation (ensure_balance_user and the HTTP
handlers). -/
def lowerTrim (s : String) : String := sTrim (sToLower s)

/-- `.strip().lower()` normalisation (the games create/cancel/accept parsers). -/
def trimLower (s : String) : String := sToLower (sTrim s)

/-- `.lstrip('@')` as applied by the admin chat commands after lowercasing. -/
def lstripAt (s : String) : String := ⟨s.data.dropWhile (fun c => c == '@')⟩

/-- A username in canonical form: trimmed and lowercase, hence fixed by both
normalisation orders appearing in the source. -/
def Canon (s : String) : Prop := sTrim s = s ∧ sToLower s = s

instance : DecidablePred Canon :=
fun s => inferInstanceAs (Decidable (sTrim s = s ∧ sToLower s = s))

theorem Canon.lowerTrim_eq {s : String} (h : Canon s) : lowerTrim s = s := by
  unfold lowerTrim
  rw [h.2, h.1]

theorem Canon.trimLower_eq {s : String} (h : Canon s) : trimLower s = s := by
  unfold trimLower
  rw [h.1, h.2]

/-- The balances document: username → stored balance (`none` = no record).
`totalRecharge` is never read by the operations under verification and is
omitted from the record. -/
abbrev Balances := String → Option ℚ

/-- `balances[u].get("balance", 0)` (a missing record reads as zero). -/
def getBal (bal : Balances) (u : String) : ℚ := (bal u).getD 0

/-- Store a balance for a user. -/
def setBal (bal : Balances) (u : String) (v : ℚ) : Balances :=
  fun x => if x = u then some v else bal x

/-- `ensure_balance_user(balances, username)`: normalises the username with
`.lower().strip()`, creates a zeroed record if absent, and rounds the stored
balance with `as_money`.  Returns the dictionary key together with the updated
document. -/
def ensure_balance_user (bal : Balances) (username : String) : String × Balances :=
  let u := lowerTrim username
  (u, setBal bal u (as_money (getBal bal u)))

/-- A shop stock item (an entry of shop_products.json); only the fields the
verified operations read are carried. -/
structure Product where
  id : String
  bin : String
  price : ℚ
  key : String
deriving DecidableEq

/-- The id-normalisation loop of `remove_shop_products_by_ids`:
`str(pid).strip()` for each requested id, dropping empties. -/
def normalizeIds (product_ids : List String) : List String :=
  (product_ids.map sTrim).filter (fun s => s != "")

/-- `remove_shop_products_by_ids(product_ids)`: removes every stock item whose
id is among the requested ids, reports the requested ids that matched nothing,
and persists the remaining stock.  Returns `((removed, missing_ids), stock')`
where `stock'` is the stock document after the call. -/
def remove_shop_products_by_ids (product_ids : List String) (stock : List Product) :
    (List Product × List String) × List Product :=
  let normalized_ids := normalizeIds product_ids
  if normalized_ids = [] then (([], []), stock)
  else
    let removed_products := stock.filter (fun p => normalized_ids.contains (sTrim p.id))
    let remaining_products := stock.filter (fun p => !(normalized_ids.contains (sTrim p.id)))
    let removed_ids := removed_products.map (fun p => sTrim p.id)
    let missing_ids := normalized_ids.filter (fun pid => !(removed_ids.contains pid))
    ((removed_products, missing_ids), remaining_products)

/-- One entry of the checkout request's `items` array. -/
structure CheckoutItem where
  productId : Option String
  price : ℚ
deriving DecidableEq

/-- The item-collection loop of `purchase_checkout`: entries with a missing
product id or a non-positive price are skipped; returns the collected product
ids and the running total. -/
def parseCheckoutItems (items : List CheckoutItem) : List String × ℚ :=
  items.foldl
    (fun acc item =>
      match item.productId with
      | none => acc
      | some pid => if item.price ≤ 0 then acc else (acc.1 ++ [pid], acc.2 + item.price))
    ([], 0)

inductive CheckoutResult
  | invalidParams
  | invalidItems
  | insufficientBalance
  | itemsNoLongerAvailable (missing_ids : List String)
  | productMismatch
  | success (oldBalance newBalance totalAmount : ℚ) (purchased : List Product)
deriving DecidableEq

/-- `purchase_checkout`: validate the request, check the balance, remove the
requested products from stock, then charge the balance.  Returns the response
together with the persisted balances and stock documents. -/
def purchase_checkout (usernameRaw : String) (items : List CheckoutItem)
    (bal : Balances) (stock : List Product) :
    CheckoutResult × Balances × List Product :=
  let username := lowerTrim usernameRaw
  if username = "" ∨ items = [] then (CheckoutResult.invalidParams, bal, stock)
  else
    let parsed := parseCheckoutItems items
    let product_ids := parsed.1
    let total_amount := parsed.2
    if product_ids = [] ∨ total_amount ≤ 0 then (CheckoutResult.invalidItems, bal, stock)
    else
      let old_balance := getBal bal username
      if old_balance < total_amount then (CheckoutResult.insufficientBalance, bal, stock)
      else
        let rr := remove_shop_products_by_ids product_ids stock
        if rr.1.2 ≠ [] then (CheckoutResult.itemsNoLongerAvailable rr.1.2, bal, rr.2)
        else if rr.1.1.length ≠ product_ids.length then
          (CheckoutResult.productMismatch, bal, rr.2)
        else
          let new_balance := old_balance - total_amount
          (CheckoutResult.success old_balance new_balance total_amount rr.1.1,
           setBal bal username new_balance, rr.2)

/-- `get_brand_from_bin`: the guard `not bin_str or len(bin_str) < 6` collapses
to a length test (the empty string has length 0). -/
def get_brand_from_bin (bin_str : String) : String :=
  if bin_str.length < 6 then "VISA"
  else
    let first_digit := bin_str.data.headD default
    if first_digit = '4' then "VISA"
    else if first_digit = '5' then "MASTERCARD"
    else if first_digit = '3' then "AMEX"
    else "VISA"

/-- Modelled from the spec: the brand table `4→VISA, 5→MASTERCARD, 3→AMEX,
else→VISA` as a pure function of the leading digit, for comparison with
`get_brand_from_bin`. -/
def brandOfLeadingDigit (c : Char) : String :=
  if c = '4' then "VISA"
  else if c = '5' then "MASTERCARD"
  else if c = '3' then "AMEX"
  else "VISA"

inductive Status
  | waiting
  | completed
deriving DecidableEq

/-- A wager record (a dice bet or blackjack match dictionary in games.json).
Outcome fields are `none`/zero until resolution.  The source stores `amount` as
the string `f"{amount:.2f}"` and re-parses it with `as_money` on every read; it
is modelled as the rational it denotes (the round trip is exact for the
2-decimal values the create handler writes). -/
structure Bet where
  id : String
  creator : String
  creatorName : String
  opponent : Option String := none
  opponentName : Option String := none
  amount : ℚ
  status : Status
  creatorDebited : Bool
  creatorRoll : Option ℕ := none
  opponentRoll : Option ℕ := none
  creatorScore : Option ℕ := none
  opponentScore : Option ℕ := none
  winner : Option String := none
  winnerName : Option String := none
  creatorPayout : ℚ := 0
  opponentPayout : ℚ := 0
  creatorBalanceAfter : ℚ := 0
  opponentBalanceAfter : ℚ := 0
deriving DecidableEq

/-- The games document (games.json). -/
structure GamesState where
  dice_bets : List Bet
  dice_history : List Bet
  blackjack_matches : List Bet
  blackjack_history : List Bet
deriving DecidableEq

/-- `next((i for i, b in enumerate(bets) if b["id"] == bet_id), -1)` followed by
indexing: the first wager with the given id. -/
def findBet (betId : String) : List Bet → Option Bet
  | [] => none
  | b :: bs => if b.id = betId then some b else findBet betId bs

/-- `bets.pop(idx)` at the first index whose id matches. -/
def popBet (betId : String) : List Bet → List Bet
  | [] => []
  | b :: bs => if b.id = betId then bs else b :: popBet betId bs

inductive CreateResult
  | invalidParams
  | duplicateWaiting
  | insufficientBalance
  | created (bet : Bet) (newBalance : ℚ)
deriving DecidableEq

/-- `api_create_dice_bet`: validate, reject a duplicate waiting bet, escrow the
stake from the creator, append the new waiting bet.  `newId` stands for the
generated `make_id("DICE")` value. -/
def api_create_dice_bet (creatorRaw creatorNameRaw : String) (amountRaw : ℚ)
    (newId : String) (st : GamesState) (bal : Balances) :
    CreateResult × GamesState × Balances :=
  let creator := trimLower creatorRaw
  let creatorName := sTrim creatorNameRaw
  let amount := as_money amountRaw
  if creator = "" ∨ creatorName = "" ∨ amount < 1 ∨ 25 < amount then
    (CreateResult.invalidParams, st, bal)
  else
    let e := ensure_balance_user bal creator
    if ∃ b ∈ st.dice_bets, b.status = Status.waiting ∧
        (b.creator = creator ∨ b.opponent = some creator) then
      (CreateResult.duplicateWaiting, st, bal)
    else if getBal e.2 e.1 < amount then (CreateResult.insufficientBalance, st, bal)
    else
      let newBalance := as_money (getBal e.2 e.1 - amount)
      let bal2 := setBal e.2 e.1 newBalance
      let bet : Bet :=
        { id := newId, creator := creator, creatorName := creatorName,
          amount := amount, status := Status.waiting, creatorDebited := true }
      (CreateResult.created bet newBalance,
       { st with dice_bets := st.dice_bets ++ [bet] }, bal2)

/-- `api_create_blackjack_match`: as the dice create, but the duplicate check
only scans for a waiting match by the same creator. -/
def api_create_blackjack_match (creatorRaw creatorNameRaw : String) (amountRaw : ℚ)
    (newId : String) (st : GamesState) (bal : Balances) :
    CreateResult × GamesState × Balances :=
  let creator := trimLower creatorRaw
  let creatorName := sTrim creatorNameRaw
  let amount := as_money amountRaw
  if creator = "" ∨ creatorName = "" ∨ amount < 1 ∨ 25 < amount then
    (CreateResult.invalidParams, st, bal)
  else
    let e := ensure_balance_user bal creator
    if ∃ m ∈ st.blackjack_matches, m.creator = creator ∧ m.status = Status.waiting then
      (CreateResult.duplicateWaiting, st, bal)
    else if getBal e.2 e.1 < amount then (CreateResult.insufficientBalance, st, bal)
    else
      let newBalance := as_money (getBal e.2 e.1 - amount)
      let bal2 := setBal e.2 e.1 newBalance
      let bet : Bet :=
        { id := newId, creator := creator, creatorName := creatorName,
          amount := amount, status := Status.waiting, creatorDebited := true }
      (CreateResult.created bet newBalance,
       { st with blackjack_matches := st.blackjack_matches ++ [bet] }, bal2)

inductive CancelResult
  | invalidParams
  | notFound
  | forbidden
  | invalidState
  | cancelled (refunded newBalance : ℚ)
deriving DecidableEq

/-- `api_cancel_dice_bet`: only the creator may cancel a waiting bet; the
escrowed stake is refunded if `creatorDebited`, and the bet is deleted. -/
def api_cancel_dice_bet (betIdRaw usernameRaw : String) (st : GamesState) (bal : Balances) :
    CancelResult × GamesState × Balances :=
  let betId := sTrim betIdRaw
  let username := trimLower usernameRaw
  if betId = "" ∨ username = "" then (CancelResult.invalidParams, st, bal)
  else
    match findBet betId st.dice_bets with
    | none => (CancelResult.notFound, st, bal)
    | some bet =>
      if bet.creator ≠ username then (CancelResult.forbidden, st, bal)
      else if bet.status ≠ Status.waiting then (CancelResult.invalidState, st, bal)
      else
        let bets2 := popBet betId st.dice_bets
        let amount := as_money bet.amount
        let e := ensure_balance_user bal username
        let refunded := if bet.creatorDebited then amount else 0
        let newBalance := if bet.creatorDebited then as_money (getBal e.2 e.1 + amount)
          else getBal e.2 e.1
        (CancelResult.cancelled refunded newBalance,
         { st with dice_bets := bets2 }, setBal e.2 e.1 newBalance)

inductive AcceptResult
  | invalidParams
  | notFound
  | notAvailable
  | selfMatch
  | creatorVoided
  | insufficientBalance
  | completed (entry : Bet)
deriving DecidableEq

/-- `api_accept_dice_bet`: find the waiting bet, forbid self-acceptance,
re-escrow the creator's stake for legacy records (voiding the bet if the
creator can no longer cover it), debit the opponent, roll, pay out (winner gets
`amount * 2`; a tie returns `amount * 0.5` to each side), and move the bet to
the history (most recent first, capped at 100).  The two rolls stand for the
two `random.randint(1, 6)` draws. -/
def api_accept_dice_bet (betIdRaw opponentRaw opponentNameRaw : String)
    (creatorRoll opponentRoll : ℕ) (st : GamesState) (bal : Balances) :
    AcceptResult × GamesState × Balances :=
  let betId := sTrim betIdRaw
  let opponent := trimLower opponentRaw
  let opponentName := sTrim opponentNameRaw
  if betId = "" ∨ opponent = "" ∨ opponentName = "" then (AcceptResult.invalidParams, st, bal)
  else
    match findBet betId st.dice_bets with
    | none => (AcceptResult.notFound, st, bal)
    | some bet =>
      if bet.status ≠ Status.waiting then (AcceptResult.notAvailable, st, bal)
      else if bet.creator = opponent then (AcceptResult.selfMatch, st, bal)
      else
        let amount := as_money bet.amount
        let creatorU := lowerTrim bet.creator
        let e1 := ensure_balance_user bal creatorU
        let e2 := ensure_balance_user e1.2 opponent
        let ck := e1.1
        let ok := e2.1
        let escrowStep : Option Balances :=
          if bet.creatorDebited then some e2.2
          else if getBal e2.2 ck < amount then none
          else some (setBal e2.2 ck (as_money (getBal e2.2 ck - amount)))
        match escrowStep with
        | none =>
          (AcceptResult.creatorVoided, { st with dice_bets := popBet betId st.dice_bets }, bal)
        | some bal1 =>
          if getBal bal1 ok < amount then (AcceptResult.insufficientBalance, st, bal)
          else
            let bal2 := setBal bal1 ok (as_money (getBal bal1 ok - amount))
            let winner := if creatorRoll > opponentRoll then bet.creator
              else if opponentRoll > creatorRoll then opponent else "tie"
            let winnerName := if creatorRoll > opponentRoll then bet.creatorName
              else if opponentRoll > creatorRoll then opponentName else "Tie"
            let creatorPayout := if winner = creatorU then as_money (amount * 2)
              else if winner = opponent then 0 else as_money (amount * (1/2))
            let opponentPayout := if winner = creatorU then 0
              else if winner = opponent then as_money (amount * 2)
              else as_money (amount * (1/2))
            let bal3 := if winner = creatorU then
                setBal bal2 ck (as_money (getBal bal2 ck + creatorPayout))
              else if winner = opponent then
                setBal bal2 ok (as_money (getBal bal2 ok + opponentPayout))
              else
                let balT := setBal bal2 ck (as_money (getBal bal2 ck + creatorPayout))
                setBal balT ok (as_money (getBal balT ok + opponentPayout))
            let entry : Bet :=
              { bet with
                creatorDebited := true,
                opponent := some opponent, opponentName := some opponentName,
                status := Status.completed,
                creatorRoll := some creatorRoll, opponentRoll := some opponentRoll,
                winner := some winner, winnerName := some winnerName,
                creatorPayout := creatorPayout, opponentPayout := opponentPayout,
                creatorBalanceAfter := getBal bal3 ck,
                opponentBalanceAfter := getBal bal3 ok }
            (AcceptResult.completed entry,
             { st with dice_bets := popBet betId st.dice_bets,
                       dice_history := (entry :: st.dice_history).take 100 },
             bal3)

/-- `api_join_blackjack_match`: as the dice accept, with two uniform scores in
`[12, 22]`; a score above 21 busts.  Both bust → tie; one busts → other wins;
otherwise the higher score wins and equal scores tie. -/
def api_join_blackjack_match (matchIdRaw opponentRaw opponentNameRaw : String)
    (creatorScore opponentScore : ℕ) (st : GamesState) (bal : Balances) :
    AcceptResult × GamesState × Balances :=
  let matchId := sTrim matchIdRaw
  let opponent := trimLower opponentRaw
  let opponentName := sTrim opponentNameRaw
  if matchId = "" ∨ opponent = "" ∨ opponentName = "" then (AcceptResult.invalidParams, st, bal)
  else
    match findBet matchId st.blackjack_matches with
    | none => (AcceptResult.notFound, st, bal)
    | some m =>
      if m.status ≠ Status.waiting then (AcceptResult.notAvailable, st, bal)
      else if m.creator = opponent then (AcceptResult.selfMatch, st, bal)
      else
        let amount := as_money m.amount
        let creatorU := lowerTrim m.creator
        let e1 := ensure_balance_user bal creatorU
        let e2 := ensure_balance_user e1.2 opponent
        let ck := e1.1
        let ok := e2.1
        let escrowStep : Option Balances :=
          if m.creatorDebited then some e2.2
          else if getBal e2.2 ck < amount then none
          else some (setBal e2.2 ck (as_money (getBal e2.2 ck - amount)))
        match escrowStep with
        | none =>
          (AcceptResult.creatorVoided,
           { st with blackjack_matches := popBet matchId st.blackjack_matches }, bal)
        | some bal1 =>
          if getBal bal1 ok < amount then (AcceptResult.insufficientBalance, st, bal)
          else
            let bal2 := setBal bal1 ok (as_money (getBal bal1 ok - amount))
            let winner :=
              if 21 < creatorScore ∧ 21 < opponentScore then "tie"
              else if 21 < creatorScore then opponent
              else if 21 < opponentScore then m.creator
              else if creatorScore > opponentScore then m.creator
              else if opponentScore > creatorScore then opponent
              else "tie"
            let winnerName :=
              if 21 < creatorScore ∧ 21 < opponentScore then "Tie"
              else if 21 < creatorScore then opponentName
              else if 21 < opponentScore then m.creatorName
              else if creatorScore > opponentScore then m.creatorName
              else if opponentScore > creatorScore then opponentName
              else "Tie"
            let creatorPayout := if winner = creatorU then as_money (amount * 2)
              else if winner = opponent then 0 else as_money (amount * (1/2))
            let opponentPayout := if winner = creatorU then 0
              else if winner = opponent then as_money (amount * 2)
              else as_money (amount * (1/2))
            let bal3 := if winner = creatorU then
                setBal bal2 ck (as_money (getBal bal2 ck + creatorPayout))
              else if winner = opponent then
                setBal bal2 ok (as_money (getBal bal2 ok + opponentPayout))
              else
                let balT := setBal bal2 ck (as_money (getBal bal2 ck + creatorPayout))
                setBal balT ok (as_money (getBal balT ok + opponentPayout))
            let entry : Bet :=
              { m with
                creatorDebited := true,
                opponent := some opponent, opponentName := some opponentName,
                status := Status.completed,
                creatorScore := some creatorScore, opponentScore := some opponentScore,
                winner := some winner, winnerName := some winnerName,
                creatorPayout := creatorPayout, opponentPayout := opponentPayout,
                creatorBalanceAfter := getBal bal3 ck,
                opponentBalanceAfter := getBal bal3 ok }
            (AcceptResult.completed entry,
             { st with blackjack_matches := popBet matchId st.blackjack_matches,
                       blackjack_history := (entry :: st.blackjack_history).take 100 },
             bal3)

inductive UpdateResult
  | invalidParams
  | insufficientBalance
  | invalidAction
  | updated (oldBalance newBalance : ℚ)
deriving DecidableEq

/-- `/api/balance/update` (`update_user_balance` in main.py): credit or debit a
raw float amount with no rounding; `subtract` fails when the balance is
smaller than the amount. -/
def update_user_balance (usernameRaw action : String) (amount : ℚ) (bal : Balances) :
    UpdateResult × Balances :=
  let username := lowerTrim usernameRaw
  if username = "" ∨ action = "" ∨ amount ≤ 0 then (UpdateResult.invalidParams, bal)
  else
    let old_balance := getBal bal username
    if action = "subtract" then
      if old_balance < amount then (UpdateResult.insufficientBalance, bal)
      else (UpdateResult.updated old_balance (old_balance - amount),
            setBal bal username (old_balance - amount))
    else if action = "add" then
      (UpdateResult.updated old_balance (old_balance + amount),
       setBal bal username (old_balance + amount))
    else (UpdateResult.invalidAction, bal)

inductive RemoveBalanceResult
  | userNotFound
  | removed (newBalance : ℚ)
deriving DecidableEq

/-- The `/removebalance` admin chat command (`remove_balance` in main.py): for
an existing user, stores `max(0, old_balance - amount)`. -/
def remove_balance (usernameRaw : String) (amount : ℚ) (bal : Balances) :
    RemoveBalanceResult × Balances :=
  let username := lstripAt (lowerTrim usernameRaw)
  match bal username with
  | none => (RemoveBalanceResult.userNotFound, bal)
  | some old_balance =>
    let new_balance := max 0 (old_balance - amount)
    (RemoveBalanceResult.removed new_balance, setBal bal username new_balance)

inductive SetBalanceResult
  | setDone (oldBalance newBalance : ℚ)
deriving DecidableEq

/-- The `/setbalance` admin chat command (`set_balance` in main.py): overwrites
the user's balance with the parsed amount, creating the record if absent. -/
def set_balance (usernameRaw : String) (amount : ℚ) (bal : Balances) :
    SetBalanceResult × Balances :=
  let username := lstripAt (lowerTrim usernameRaw)
  let old_balance := getBal bal username
  (SetBalanceResult.setDone old_balance amount, setBal bal username amount)

/-- Number of waiting wagers a user has open as creator in a wager list. -/
def waitingCount (bets : List Bet) (u : String) : ℕ :=
  (bets.filter (fun b => decide (b.status = Status.waiting ∧ b.creator = u))).length

/-! Small facts about the embedded state operations. -/

theorem setBal_apply_same (bal : Balances) (u : String) (v : ℚ) :
    setBal bal u v u = some v := by
  simp [setBal]

theorem setBal_apply_ne (bal : Balances) (u x : String) (v : ℚ) (h : x ≠ u) :
    setBal bal u v x = bal x := by
  simp [setBal, h]

theorem getBal_setBal_same (bal : Balances) (u : String) (v : ℚ) :
    getBal (setBal bal u v) u = v := by
  simp [getBal, setBal]

theorem getBal_setBal_ne (bal : Balances) (u x : String) (v : ℚ) (h : x ≠ u) :
    getBal (setBal bal u v) x = getBal bal x := by
  simp [getBal, setBal, h]

theorem findBet_append_last {l : List Bet} {b : Bet} {i : String}
    (h : ∀ x ∈ l, x.id ≠ i) (hb : b.id = i) : findBet i (l ++ [b]) = some b := by
  induction l with
  | nil => simp [findBet, hb]
  | cons x xs ih =>
    have hx : x.id ≠ i := h x (by simp)
    simp only [List.cons_append, findBet, if_neg hx]
    exact ih fun y hy => h y (by simp [hy])

theorem popBet_append_last {l : List Bet} {b : Bet} {i : String}
    (h : ∀ x ∈ l, x.id ≠ i) (hb : b.id = i) : popBet i (l ++ [b]) = l := by
  induction l with
  | nil => simp [popBet, hb]
  | cons x xs ih =>
    have hx : x.id ≠ i := h x (by simp)
    simp only [List.cons_append, popBet, if_neg hx]
    exact congrArg (List.cons x) (ih fun y hy => h y (by simp [hy]))

theorem waitingCount_append (l1 l2 : List Bet) (u : String) :
    waitingCount (l1 ++ l2) u = waitingCount l1 u + waitingCount l2 u := by
  simp [waitingCount, List.filter_append]

theorem waitingCount_eq_zero (l : List Bet) (u : String)
    (h : ∀ b ∈ l, ¬(b.status = Status.waiting ∧ b.creator = u)) :
    waitingCount l u = 0 := by
  unfold waitingCount
  rw [List.length_eq_zero, List.filter_eq_nil_iff]
  intro b hb
  simpa using h b hb

/-! ### C10 -/

/-- C10: on a 6-digit BIN string, `get_brand_from_bin` is exactly the pure
function of the leading digit given by the spec table (`4→VISA, 5→MASTERCARD,
3→AMEX, else→VISA`). -/
theorem c10_brand_is_function_of_leading_digit (bin_str : String)
    (h : bin_str.length = 6) :
    get_brand_from_bin bin_str = brandOfLeadingDigit (bin_str.data.headD default) := by
  unfold get_brand_from_bin brandOfLeadingDigit
  rw [if_neg (by omega)]

theorem c10_brand_is_function_of_leading_digit_witness :
    "530500".length = 6 ∧
      get_brand_from_bin "530500" = brandOfLeadingDigit ("530500".data.headD default) :=
  ⟨by decide, c10_brand_is_function_of_leading_digit "530500" (by decide)⟩

/-! ### C9 -/

/-- C9 (amended): the admin set-balance command overwrites the stored balance
with the supplied amount unconditionally, for every input — negative amounts
included; the operation performs no negativity check. -/
theorem c9_set_balance_unconditional_overwrite (usernameRaw : String) (amount : ℚ)
    (bal : Balances) :
    (set_balance usernameRaw amount bal).2 (lstripAt (lowerTrim usernameRaw)) = some amount ∧
      (set_balance usernameRaw amount bal).1 =
        SetBalanceResult.setDone (getBal bal (lstripAt (lowerTrim usernameRaw))) amount := by
  unfold set_balance
  exact ⟨setBal_apply_same _ _ _, rfl⟩

/-- C9 counterexample: `/setbalance bob -5` stores the negative balance `-5`;
the operation does not forbid negative input. -/
theorem c9_counterexample_negative_stored :
    (set_balance "bob" (-5) (fun _ => none)).2 "bob" = some (-5) ∧ ((-5 : ℚ) < 0) := by
  refine ⟨?_, by norm_num⟩
  norm_num +decide [set_balance, setBal, lstripAt, lowerTrim, sTrim, sToLower]

/-! ### C7 -/

/-- C7 (amended): on the HTTP balance-update path, a `subtract` whose amount
exceeds the current balance fails with insufficient-balance and leaves the
balances document unchanged; the admin chat remove-balance command, however,
never fails for an existing user: it clamps the balance at zero
(`max(0, balance - amount)`), so a debit larger than the balance changes the
stored balance to `0` instead of failing. -/
theorem c7_debit_paths (usernameRaw : String) (amount old : ℚ) (bal : Balances) :
    (lowerTrim usernameRaw ≠ "" → 0 < amount →
      getBal bal (lowerTrim usernameRaw) < amount →
      update_user_balance usernameRaw "subtract" amount bal =
        (UpdateResult.insufficientBalance, bal)) ∧
    (bal (lstripAt (lowerTrim usernameRaw)) = some old → old < amount →
      (remove_balance usernameRaw amount bal).1 = RemoveBalanceResult.removed 0 ∧
        (remove_balance usernameRaw amount bal).2 (lstripAt (lowerTrim usernameRaw)) =
          some 0) := by
  constructor
  · intro huser hpos hlt
    unfold update_user_balance
    rw [if_neg (by push_neg; exact ⟨huser, by decide, by linarith⟩)]
    simp [hlt]
  · intro hsome hlt
    have hmax : max 0 (old - amount) = 0 := by
      rw [max_eq_left]
      linarith
    constructor
    · simp only [remove_balance, hsome, hmax]
    · simp only [remove_balance, hsome, hmax]
      exact setBal_apply_same _ _ _

/-- Concrete balances document: bob holds $5. -/
def bobFive : Balances := fun u => if u = "bob" then some 5 else none

theorem c7_debit_paths_witness :
    (update_user_balance "bob" "subtract" 10 bobFive =
        (UpdateResult.insufficientBalance, bobFive)) ∧
      (remove_balance "bob" 10 bobFive).1 = RemoveBalanceResult.removed 0 ∧
      (remove_balance "bob" 10 bobFive).2 (lstripAt (lowerTrim "bob")) = some 0 := by
  refine ⟨(c7_debit_paths "bob" 10 5 bobFive).1 (by decide) (by norm_num) ?_,
    (c7_debit_paths "bob" 10 5 bobFive).2 ?_ (by norm_num)⟩
  · norm_num +decide [getBal, bobFive, lowerTrim, sTrim, sToLower]
  · norm_num +decide [bobFive, lstripAt, lowerTrim, sTrim, sToLower]

/-- C7 counterexample: `/removebalance bob 10` with bob at $5 succeeds and
stores $0 — the stored balance changes, instead of the debit failing and
leaving the balance unchanged as the claim states for every debit path. -/
theorem c7_counterexample_remove_balance_clamps :
    (remove_balance "bob" 10 bobFive).2 "bob" = some 0 ∧
      (remove_balance "bob" 10 bobFive).1 = RemoveBalanceResult.removed 0 ∧
      some (0 : ℚ) ≠ some (5 : ℚ) := by
  refine ⟨?_, ?_, by norm_num⟩ <;>
    norm_num +decide [remove_balance, bobFive, setBal, lstripAt, lowerTrim, sTrim, sToLower]

/-! ### C1 -/

/-- C1: a checkout whose user balance is below the requested total fails with
insufficient-balance before any inventory mutation: the persisted balances and
stock documents are both returned unchanged. -/
theorem c1_checkout_insufficient_balance_no_mutation (usernameRaw : String)
    (items : List CheckoutItem) (bal : Balances) (stock : List Product)
    (huser : lowerTrim usernameRaw ≠ "")
    (hpids : (parseCheckoutItems items).1 ≠ [])
    (htotal : 0 < (parseCheckoutItems items).2)
    (hbal : getBal bal (lowerTrim usernameRaw) < (parseCheckoutItems items).2) :
    purchase_checkout usernameRaw items bal stock =
      (CheckoutResult.insufficientBalance, bal, stock) := by
  have hitems : items ≠ [] := by
    rintro rfl
    exact hpids rfl
  simp only [purchase_checkout]
  rw [if_neg (by push_neg; exact ⟨huser, hitems⟩),
      if_neg (by push_neg; exact ⟨hpids, htotal⟩),
      if_pos hbal]

/-- Concrete balances document: carol holds $10. -/
def carolTen : Balances := fun u => if u = "carol" then some 10 else none

/-- Concrete stock: a single product with id 5 priced $12.50. -/
def stockFive : List Product := [{ id := "5", bin := "411111", price := 25/2, key := "KEY5" }]

theorem c1_checkout_insufficient_balance_no_mutation_witness :
    purchase_checkout "carol" [{ productId := some "5", price := 25/2 }] carolTen stockFive =
      (CheckoutResult.insufficientBalance, carolTen, stockFive) :=
  c1_checkout_insufficient_balance_no_mutation "carol" _ carolTen stockFive
    (by decide)
    (by norm_num [parseCheckoutItems])
    (by norm_num [parseCheckoutItems])
    (by norm_num +decide [parseCheckoutItems, getBal, carolTen, lowerTrim, sTrim, sToLower])

/-! ### C2 -/

theorem sTrim_mem_normalizeIds {product_ids : List String} {pid : String}
    (hmem : pid ∈ product_ids) (hne : sTrim pid ≠ "") :
    sTrim pid ∈ normalizeIds product_ids := by
  unfold normalizeIds
  refine List.mem_filter.mpr ⟨List.mem_map_of_mem _ hmem, ?_⟩
  simpa using hne

theorem missing_ids_mem {product_ids : List String} {stock : List Product} {pid : String}
    (hmem : pid ∈ product_ids) (hne : sTrim pid ≠ "")
    (habs : ∀ p ∈ stock, sTrim p.id ≠ sTrim pid) :
    sTrim pid ∈ (remove_shop_products_by_ids product_ids stock).1.2 := by
  have hn := sTrim_mem_normalizeIds hmem hne
  simp only [remove_shop_products_by_ids]
  rw [if_neg (List.ne_nil_of_mem hn)]
  refine List.mem_filter.mpr ⟨hn, ?_⟩
  suffices hns : sTrim pid ∉
      (stock.filter fun p => (normalizeIds product_ids).contains (sTrim p.id)).map
        (fun p => sTrim p.id) by
    simpa [List.contains, List.elem_iff] using hns
  intro hmem2
  obtain ⟨p, hp, hpe⟩ := List.mem_map.mp hmem2
  exact habs p (List.mem_filter.mp hp).1 hpe

/-- Evaluation of `purchase_checkout` on the missing-items branch. -/
theorem checkout_missing_eval (usernameRaw : String)
    (items : List CheckoutItem) (bal : Balances) (stock : List Product)
    (huser : lowerTrim usernameRaw ≠ "")
    (hpids : (parseCheckoutItems items).1 ≠ [])
    (htotal : 0 < (parseCheckoutItems items).2)
    (hbal : ¬ getBal bal (lowerTrim usernameRaw) < (parseCheckoutItems items).2)
    (habsent : ∃ pid ∈ (parseCheckoutItems items).1, sTrim pid ≠ "" ∧
      ∀ p ∈ stock, sTrim p.id ≠ sTrim pid) :
    purchase_checkout usernameRaw items bal stock =
      (CheckoutResult.itemsNoLongerAvailable
        (remove_shop_products_by_ids (parseCheckoutItems items).1 stock).1.2,
       bal,
       (remove_shop_products_by_ids (parseCheckoutItems items).1 stock).2) := by
  obtain ⟨pid, hmem, hne, habs⟩ := habsent
  have hmiss : (remove_shop_products_by_ids (parseCheckoutItems items).1 stock).1.2 ≠ [] :=
    List.ne_nil_of_mem (missing_ids_mem hmem hne habs)
  have hitems : items ≠ [] := by
    rintro rfl
    exact hpids rfl
  simp only [purchase_checkout]
  rw [if_neg (by push_neg; exact ⟨huser, hitems⟩),
      if_neg (by push_neg; exact ⟨hpids, htotal⟩),
      if_neg hbal, if_pos hmiss]

/-- C2: if, after the funds check, some requested product id is absent from the
stock at reservation time, checkout fails with the 409 items-no-longer-available
error and the persisted balances document is unchanged — the user's balance is
not charged. -/
theorem c2_checkout_missing_items_balance_unchanged (usernameRaw : String)
    (items : List CheckoutItem) (bal : Balances) (stock : List Product)
    (huser : lowerTrim usernameRaw ≠ "")
    (hpids : (parseCheckoutItems items).1 ≠ [])
    (htotal : 0 < (parseCheckoutItems items).2)
    (hbal : ¬ getBal bal (lowerTrim usernameRaw) < (parseCheckoutItems items).2)
    (habsent : ∃ pid ∈ (parseCheckoutItems items).1, sTrim pid ≠ "" ∧
      ∀ p ∈ stock, sTrim p.id ≠ sTrim pid) :
    purchase_checkout usernameRaw items bal stock =
      (CheckoutResult.itemsNoLongerAvailable
        (remove_shop_products_by_ids (parseCheckoutItems items).1 stock).1.2,
       bal,
       (remove_shop_products_by_ids (parseCheckoutItems items).1 stock).2) :=
  checkout_missing_eval usernameRaw items bal stock huser hpids htotal hbal habsent

/-- Concrete balances document: dave holds $20. -/
def daveTwenty : Balances := fun u => if u = "dave" then some 20 else none

/-- Concrete stock: a single product with id 1. -/
def stockOne : List Product := [{ id := "1", bin := "411111", price := 5, key := "KEY1" }]

/-- Checkout request asking for product 1 (in stock) and product 9 (absent). -/
def itemsOneNine : List CheckoutItem :=
  [{ productId := some "1", price := 5 }, { productId := some "9", price := 5 }]

theorem c2_checkout_missing_items_balance_unchanged_witness :
    purchase_checkout "dave" itemsOneNine daveTwenty stockOne =
      (CheckoutResult.itemsNoLongerAvailable
        (remove_shop_products_by_ids (parseCheckoutItems itemsOneNine).1 stockOne).1.2,
       daveTwenty,
       (remove_shop_products_by_ids (parseCheckoutItems itemsOneNine).1 stockOne).2) :=
  c2_checkout_missing_items_balance_unchanged "dave" itemsOneNine daveTwenty stockOne
    (by decide)
    (by norm_num +decide [parseCheckoutItems, itemsOneNine])
    (by norm_num [parseCheckoutItems, itemsOneNine])
    (by norm_num +decide [parseCheckoutItems, itemsOneNine, getBal, daveTwenty,
          lowerTrim, sTrim, sToLower])
    (by
      refine ⟨"9", ?_, by decide, ?_⟩
      · norm_num [parseCheckoutItems, itemsOneNine]
      · intro p hp
        simp only [stockOne, List.mem_singleton] at hp
        subst hp
        decide)

/-! ### C3 -/

theorem remove_eval_stock_of_ne_nil {product_ids : List String} {stock : List Product}
    (h : normalizeIds product_ids ≠ []) :
    (remove_shop_products_by_ids product_ids stock).2 =
      stock.filter (fun p => !((normalizeIds product_ids).contains (sTrim p.id))) := by
  simp only [remove_shop_products_by_ids]
  rw [if_neg h]

/-- C3 (implicit): when checkout fails with the 409 some-items-missing error
while a non-empty proper subset of the requested ids was present in stock, the
present items have already been removed and that removal is persisted: the
returned stock document is the original stock minus every requested id (so it
is strictly shorter and no longer contains any requested item), while the
balances document — and hence the user's balance — is unchanged. -/
theorem c3_partial_missing_checkout_loses_present_items (usernameRaw : String)
    (items : List CheckoutItem) (bal : Balances) (stock : List Product)
    (huser : lowerTrim usernameRaw ≠ "")
    (hpids : (parseCheckoutItems items).1 ≠ [])
    (htotal : 0 < (parseCheckoutItems items).2)
    (hbal : ¬ getBal bal (lowerTrim usernameRaw) < (parseCheckoutItems items).2)
    (habsent : ∃ pid ∈ (parseCheckoutItems items).1, sTrim pid ≠ "" ∧
      ∀ p ∈ stock, sTrim p.id ≠ sTrim pid)
    (hpresent : ∃ p ∈ stock,
      (normalizeIds (parseCheckoutItems items).1).contains (sTrim p.id) = true) :
    (∃ missing, missing ≠ [] ∧
      (purchase_checkout usernameRaw items bal stock).1 =
        CheckoutResult.itemsNoLongerAvailable missing) ∧
    (purchase_checkout usernameRaw items bal stock).2.1 = bal ∧
    (purchase_checkout usernameRaw items bal stock).2.2 =
      stock.filter
        (fun p => !((normalizeIds (parseCheckoutItems items).1).contains (sTrim p.id))) ∧
    (∀ p ∈ stock,
      (normalizeIds (parseCheckoutItems items).1).contains (sTrim p.id) = true →
        p ∉ (purchase_checkout usernameRaw items bal stock).2.2) ∧
    (purchase_checkout usernameRaw items bal stock).2.2.length < stock.length := by
  obtain ⟨pid0, hmem0, hne0, habs0⟩ := habsent
  have hn : normalizeIds (parseCheckoutItems items).1 ≠ [] :=
    List.ne_nil_of_mem (sTrim_mem_normalizeIds hmem0 hne0)
  have hmiss : (remove_shop_products_by_ids (parseCheckoutItems items).1 stock).1.2 ≠ [] :=
    List.ne_nil_of_mem (missing_ids_mem hmem0 hne0 habs0)
  have heval := checkout_missing_eval usernameRaw items bal stock huser hpids htotal hbal
    ⟨pid0, hmem0, hne0, habs0⟩
  have hstock : (purchase_checkout usernameRaw items bal stock).2.2 =
      stock.filter
        (fun p => !((normalizeIds (parseCheckoutItems items).1).contains (sTrim p.id))) := by
    rw [heval]
    exact remove_eval_stock_of_ne_nil hn
  refine ⟨⟨_, hmiss, by rw [heval]⟩, by rw [heval], hstock, ?_, ?_⟩
  · intro p hp hc hmem2
    rw [hstock] at hmem2
    have := (List.mem_filter.mp hmem2).2
    rw [hc] at this
    simp at this
  · rw [hstock]
    obtain ⟨p, hp, hc⟩ := hpresent
    exact List.length_filter_lt_length_iff_exists.mpr ⟨p, hp, by rw [hc]; decide⟩

/-- Concrete stock: products 1 and 2. -/
def stockOneTwo : List Product :=
  [{ id := "1", bin := "411111", price := 5, key := "KEY1" },
   { id := "2", bin := "530500", price := 5, key := "KEY2" }]

theorem c3_partial_missing_checkout_loses_present_items_witness :
    (∃ missing, missing ≠ [] ∧
      (purchase_checkout "dave" itemsOneNine daveTwenty stockOneTwo).1 =
        CheckoutResult.itemsNoLongerAvailable missing) ∧
    (purchase_checkout "dave" itemsOneNine daveTwenty stockOneTwo).2.1 = daveTwenty ∧
    (purchase_checkout "dave" itemsOneNine daveTwenty stockOneTwo).2.2 =
      stockOneTwo.filter
        (fun p =>
          !((normalizeIds (parseCheckoutItems itemsOneNine).1).contains (sTrim p.id))) ∧
    (∀ p ∈ stockOneTwo,
      (normalizeIds (parseCheckoutItems itemsOneNine).1).contains (sTrim p.id) = true →
        p ∉ (purchase_checkout "dave" itemsOneNine daveTwenty stockOneTwo).2.2) ∧
    (purchase_checkout "dave" itemsOneNine daveTwenty stockOneTwo).2.2.length <
      stockOneTwo.length :=
  c3_partial_missing_checkout_loses_present_items "dave" itemsOneNine daveTwenty stockOneTwo
    (by decide)
    (by norm_num +decide [parseCheckoutItems, itemsOneNine])
    (by norm_num [parseCheckoutItems, itemsOneNine])
    (by norm_num +decide [parseCheckoutItems, itemsOneNine, getBal, daveTwenty,
          lowerTrim, sTrim, sToLower])
    (by
      refine ⟨"9", ?_, by decide, ?_⟩
      · norm_num [parseCheckoutItems, itemsOneNine]
      · intro p hp
        simp only [stockOneTwo, List.mem_cons, List.mem_singleton] at hp
        rcases hp with hp | hp | hp
        · subst hp; decide
        · subst hp; decide
        · cases hp)
    (by
      refine ⟨{ id := "1", bin := "411111", price := 5, key := "KEY1" }, ?_, ?_⟩
      · simp [stockOneTwo]
      · norm_num +decide [parseCheckoutItems, itemsOneNine, normalizeIds, sTrim, sToLower])

/-! ### C8 -/

/-- C8 (amended): the wager-engine operations round with `as_money` before
comparing and storing (a successful dice create always persists a 2-decimal
balance), but the HTTP balance-update path and the checkout path perform no
normalisation at all: they compare and store the raw amounts, so the persisted
balance there is the exact unrounded arithmetic result `old ± amount`. -/
theorem c8_normalisation_only_on_wager_paths (usernameRaw : String) (amount : ℚ)
    (bal : Balances) :
    (lowerTrim usernameRaw ≠ "" → 0 < amount →
      (update_user_balance usernameRaw "add" amount bal).2 (lowerTrim usernameRaw) =
        some (getBal bal (lowerTrim usernameRaw) + amount)) ∧
    (∀ items stock o n t its,
      (purchase_checkout usernameRaw items bal stock).1 = CheckoutResult.success o n t its →
        n = o - t ∧
          (purchase_checkout usernameRaw items bal stock).2.1 (lowerTrim usernameRaw) =
            some (o - t)) ∧
    (∀ creatorNameRaw amountRaw newId st b nb,
      (api_create_dice_bet usernameRaw creatorNameRaw amountRaw newId st bal).1 =
        CreateResult.created b nb → isMoney nb) := by
  refine ⟨?_, ?_, ?_⟩
  · intro huser hpos
    unfold update_user_balance
    rw [if_neg (by push_neg; exact ⟨huser, by decide, by linarith⟩),
        if_neg (by decide : ¬ ("add" : String) = "subtract"), if_pos rfl]
    exact setBal_apply_same _ _ _
  · intro items stock o n t its h
    have hcopy := h
    simp only [purchase_checkout] at h
    split at h
    next hc1 => simp at h
    next hc1 =>
      split at h
      next hc2 => simp at h
      next hc2 =>
        split at h
        next hc3 => simp at h
        next hc3 =>
          split at h
          next hc4 => simp at h
          next hc4 =>
            split at h
            next hc5 => simp at h
            next hc5 =>
              have heq : purchase_checkout usernameRaw items bal stock =
                  (CheckoutResult.success (getBal bal (lowerTrim usernameRaw))
                     (getBal bal (lowerTrim usernameRaw) - (parseCheckoutItems items).2)
                     (parseCheckoutItems items).2
                     (remove_shop_products_by_ids (parseCheckoutItems items).1 stock).1.1,
                   setBal bal (lowerTrim usernameRaw)
                     (getBal bal (lowerTrim usernameRaw) - (parseCheckoutItems items).2),
                   (remove_shop_products_by_ids (parseCheckoutItems items).1 stock).2) := by
                simp only [purchase_checkout]
                rw [if_neg hc1, if_neg hc2, if_neg hc3, if_neg hc4, if_neg hc5]
              rw [heq] at hcopy
              simp only [CheckoutResult.success.injEq] at hcopy
              obtain ⟨ho, hn, ht, -⟩ := hcopy
              subst ho
              subst hn
              subst ht
              rw [heq]
              exact ⟨rfl, setBal_apply_same _ _ _⟩
  · intro creatorNameRaw amountRaw newId st b nb h
    simp only [api_create_dice_bet] at h
    split at h
    next hc1 => simp at h
    next hc1 =>
      split at h
      next hc2 => simp at h
      next hc2 =>
        split at h
        next hc3 => simp at h
        next hc3 =>
          simp only [CreateResult.created.injEq] at h
          exact h.2 ▸ isMoney_as_money _

/-- The empty balances document. -/
def emptyBal : Balances := fun _ => none

theorem c8_normalisation_only_on_wager_paths_witness :
    (update_user_balance "eve" "add" (1/200) emptyBal).2 (lowerTrim "eve") =
      some (getBal emptyBal (lowerTrim "eve") + 1/200) :=
  (c8_normalisation_only_on_wager_paths "eve" (1/200) emptyBal).1 (by decide) (by norm_num)

/-- C8 counterexample: the HTTP balance update `add` of a half-cent amount
stores the unrounded value `1/200`, which is not a 2-decimal money value —
contradicting "all monetary amounts are normalized to exactly 2 decimal places
before being stored" on this balance-mutating path. -/
theorem c8_counterexample_add_stores_unrounded :
    (update_user_balance "eve" "add" (1/200) emptyBal).2 "eve" = some (1/200) ∧
      ¬ isMoney (1/200) := by
  constructor
  · norm_num +decide [update_user_balance, getBal, setBal, emptyBal, lowerTrim,
      sTrim, sToLower]
  · intro hm
    rw [isMoney, as_money] at hm
    norm_num [round_eq] at hm

/-! ### C6 -/

theorem waitingCount_le_length (l : List Bet) (u : String) : waitingCount l u ≤ l.length :=
  List.length_filter_le _ _

theorem waitingCount_single_ne (b : Bet) (u : String) (h : b.creator ≠ u) :
    waitingCount [b] u = 0 := by
  refine waitingCount_eq_zero _ _ ?_
  rintro x hx ⟨-, hcr⟩
  rcases List.mem_singleton.mp hx with rfl
  exact h hcr

/-- C6: a second create call while the creator already has a waiting wager of
the same game type is rejected as a duplicate and changes nothing — no wager is
created and the creator's balance document is not touched; moreover both create
operations preserve the at-most-one-waiting-wager-per-creator invariant (they
are the only operations that add wagers). -/
theorem c6_single_waiting_wager_per_creator :
    (∀ creatorRaw creatorNameRaw amountRaw newId st bal,
      ¬(trimLower creatorRaw = "" ∨ sTrim creatorNameRaw = "" ∨
          as_money amountRaw < 1 ∨ 25 < as_money amountRaw) →
      (∃ b ∈ st.dice_bets, b.status = Status.waiting ∧
          (b.creator = trimLower creatorRaw ∨ b.opponent = some (trimLower creatorRaw))) →
      api_create_dice_bet creatorRaw creatorNameRaw amountRaw newId st bal =
        (CreateResult.duplicateWaiting, st, bal)) ∧
    (∀ creatorRaw creatorNameRaw amountRaw newId st bal,
      ¬(trimLower creatorRaw = "" ∨ sTrim creatorNameRaw = "" ∨
          as_money amountRaw < 1 ∨ 25 < as_money amountRaw) →
      (∃ m ∈ st.blackjack_matches, m.creator = trimLower creatorRaw ∧
          m.status = Status.waiting) →
      api_create_blackjack_match creatorRaw creatorNameRaw amountRaw newId st bal =
        (CreateResult.duplicateWaiting, st, bal)) ∧
    (∀ creatorRaw creatorNameRaw amountRaw newId st bal,
      (∀ u, waitingCount st.dice_bets u ≤ 1) →
      ∀ u, waitingCount
        (api_create_dice_bet creatorRaw creatorNameRaw amountRaw newId st bal).2.1.dice_bets
          u ≤ 1) ∧
    (∀ creatorRaw creatorNameRaw amountRaw newId st bal,
      (∀ u, waitingCount st.blackjack_matches u ≤ 1) →
      ∀ u, waitingCount
        (api_create_blackjack_match creatorRaw creatorNameRaw amountRaw newId st
          bal).2.1.blackjack_matches u ≤ 1) := by
  refine ⟨?_, ?_, ?_, ?_⟩
  · intro creatorRaw creatorNameRaw amountRaw newId st bal hval hdup
    simp only [api_create_dice_bet]
    rw [if_neg hval, if_pos hdup]
  · intro creatorRaw creatorNameRaw amountRaw newId st bal hval hdup
    simp only [api_create_blackjack_match]
    rw [if_neg hval, if_pos hdup]
  · intro creatorRaw creatorNameRaw amountRaw newId st bal hinv u
    simp only [api_create_dice_bet]
    split
    · exact hinv u
    · split
      next hdup =>
        exact hinv u
      next hdup =>
        split
        · exact hinv u
        · have hnocre : ∀ b ∈ st.dice_bets,
              ¬(b.status = Status.waiting ∧ b.creator = trimLower creatorRaw) := by
            rintro b hb ⟨hw, hcr⟩
            exact hdup ⟨b, hb, hw, Or.inl hcr⟩
          dsimp only
          rw [waitingCount_append]
          by_cases hu : u = trimLower creatorRaw
          · subst hu
            rw [waitingCount_eq_zero _ _ hnocre, Nat.zero_add]
            exact waitingCount_le_length _ _
          · rw [waitingCount_single_ne _ _ fun hh => hu hh.symm, Nat.add_zero]
            exact hinv u
  · intro creatorRaw creatorNameRaw amountRaw newId st bal hinv u
    simp only [api_create_blackjack_match]
    split
    · exact hinv u
    · split
      next hdup =>
        exact hinv u
      next hdup =>
        split
        · exact hinv u
        · have hnocre : ∀ b ∈ st.blackjack_matches,
              ¬(b.status = Status.waiting ∧ b.creator = trimLower creatorRaw) := by
            rintro b hb ⟨hw, hcr⟩
            exact hdup ⟨b, hb, hcr, hw⟩
          dsimp only
          rw [waitingCount_append]
          by_cases hu : u = trimLower creatorRaw
          · subst hu
            rw [waitingCount_eq_zero _ _ hnocre, Nat.zero_add]
            exact waitingCount_le_length _ _
          · rw [waitingCount_single_ne _ _ fun hh => hu hh.symm, Nat.add_zero]
            exact hinv u

/-- A waiting dice bet by alice with stake $5. -/
def aliceWaitingBet : Bet :=
  { id := "DICE_1", creator := "alice", creatorName := "Alice", amount := 5,
    status := Status.waiting, creatorDebited := true }

/-- Games document holding only alice's waiting dice bet. -/
def gamesWithAliceBet : GamesState :=
  { dice_bets := [aliceWaitingBet], dice_history := [], blackjack_matches := [],
    blackjack_history := [] }

/-- Balances: alice $20, bob $10. -/
def aliceBob : Balances :=
  fun u => if u = "alice" then some 20 else if u = "bob" then some 10 else none

theorem c6_single_waiting_wager_per_creator_witness :
    api_create_dice_bet "alice" "Alice" 5 "DICE_2" gamesWithAliceBet aliceBob =
      (CreateResult.duplicateWaiting, gamesWithAliceBet, aliceBob) :=
  c6_single_waiting_wager_per_creator.1 "alice" "Alice" 5 "DICE_2" gamesWithAliceBet aliceBob
    (by
      push_neg
      refine ⟨by decide, by decide, ?_, ?_⟩ <;> norm_num [as_money, round_eq])
    (by decide)

/-! ### C5 -/

/-- Evaluation of a successful dice create for a canonical creator name. -/
theorem create_dice_success_eval (creator creatorNameRaw : String) (amountRaw : ℚ)
    (newId : String) (st : GamesState) (bal : Balances)
    (hcanon : Canon creator) (hne : creator ≠ "")
    (hname : sTrim creatorNameRaw ≠ "")
    (h1 : 1 ≤ as_money amountRaw) (h2 : as_money amountRaw ≤ 25)
    (hdup : ¬ ∃ b ∈ st.dice_bets, b.status = Status.waiting ∧
      (b.creator = creator ∨ b.opponent = some creator))
    (hfunds : ¬ as_money (getBal bal creator) < as_money amountRaw) :
    api_create_dice_bet creator creatorNameRaw amountRaw newId st bal =
      (CreateResult.created
        { id := newId, creator := creator, creatorName := sTrim creatorNameRaw,
          amount := as_money amountRaw, status := Status.waiting, creatorDebited := true }
        (as_money (as_money (getBal bal creator) - as_money amountRaw)),
       { st with dice_bets := st.dice_bets ++
          [{ id := newId, creator := creator, creatorName := sTrim creatorNameRaw,
             amount := as_money amountRaw, status := Status.waiting,
             creatorDebited := true }] },
       setBal (setBal bal creator (as_money (getBal bal creator))) creator
         (as_money (as_money (getBal bal creator) - as_money amountRaw))) := by
  simp only [api_create_dice_bet, ensure_balance_user, hcanon.trimLower_eq,
    hcanon.lowerTrim_eq, getBal_setBal_same]
  rw [if_neg (by push_neg; exact ⟨hne, hname, h1, h2⟩), if_neg hdup, if_neg hfunds]

/-- Evaluation of a successful dice cancel by the creator of a waiting,
already-debited bet. -/
theorem cancel_dice_success_eval (betIdRaw username : String) (st : GamesState)
    (bal : Balances) (bet : Bet)
    (hid : sTrim betIdRaw = betIdRaw) (hidne : betIdRaw ≠ "")
    (hcanon : Canon username) (hne : username ≠ "")
    (hfound : findBet betIdRaw st.dice_bets = some bet)
    (hcr : bet.creator = username)
    (hst : bet.status = Status.waiting)
    (hdeb : bet.creatorDebited = true) :
    api_cancel_dice_bet betIdRaw username st bal =
      (CancelResult.cancelled (as_money bet.amount)
         (as_money (as_money (getBal bal username) + as_money bet.amount)),
       { st with dice_bets := popBet betIdRaw st.dice_bets },
       setBal (setBal bal username (as_money (getBal bal username))) username
         (as_money (as_money (getBal bal username) + as_money bet.amount))) := by
  simp only [api_cancel_dice_bet, hid, hcanon.trimLower_eq, hfound, ensure_balance_user,
    hcanon.lowerTrim_eq, getBal_setBal_same]
  rw [if_neg (by push_neg; exact ⟨hidne, hne⟩)]
  simp [hcr, hst, hdeb]

/-- C5 (amended): create followed by a successful cancel deletes the wager from
the active list and restores the creator's stored balance to `as_money` of its
pre-create value: exactly the pre-create value whenever that value was a
2-decimal money value, and the value rounded to the nearest cent otherwise
(ensure_balance_user rounds the stored balance on first touch). -/
theorem c5_create_cancel_roundtrip (creator creatorNameRaw : String) (amountRaw : ℚ)
    (newId : String) (st : GamesState) (bal : Balances)
    (hcanon : Canon creator) (hne : creator ≠ "")
    (hname : sTrim creatorNameRaw ≠ "")
    (h1 : 1 ≤ as_money amountRaw) (h2 : as_money amountRaw ≤ 25)
    (hdup : ¬ ∃ b ∈ st.dice_bets, b.status = Status.waiting ∧
      (b.creator = creator ∨ b.opponent = some creator))
    (hfunds : ¬ as_money (getBal bal creator) < as_money amountRaw)
    (hid : sTrim newId = newId) (hidne : newId ≠ "")
    (hfresh : ∀ b ∈ st.dice_bets, b.id ≠ newId) :
    (api_cancel_dice_bet newId creator
        (api_create_dice_bet creator creatorNameRaw amountRaw newId st bal).2.1
        (api_create_dice_bet creator creatorNameRaw amountRaw newId st bal).2.2).2.1.dice_bets
      = st.dice_bets ∧
    (api_cancel_dice_bet newId creator
        (api_create_dice_bet creator creatorNameRaw amountRaw newId st bal).2.1
        (api_create_dice_bet creator creatorNameRaw amountRaw newId st bal).2.2).2.2 creator
      = some (as_money (getBal bal creator)) ∧
    (isMoney (getBal bal creator) →
      (api_cancel_dice_bet newId creator
          (api_create_dice_bet creator creatorNameRaw amountRaw newId st bal).2.1
          (api_create_dice_bet creator creatorNameRaw amountRaw newId st bal).2.2).2.2 creator
        = some (getBal bal creator)) ∧
    (api_cancel_dice_bet newId creator
        (api_create_dice_bet creator creatorNameRaw amountRaw newId st bal).2.1
        (api_create_dice_bet creator creatorNameRaw amountRaw newId st bal).2.2).1
      = CancelResult.cancelled (as_money amountRaw) (as_money (getBal bal creator)) := by
  have hA : isMoney (as_money amountRaw) := isMoney_as_money _
  have hc0 : isMoney (as_money (getBal bal creator)) := isMoney_as_money _
  have hsub : isMoney (as_money (getBal bal creator) - as_money amountRaw) := hc0.sub hA
  have hcreate := create_dice_success_eval creator creatorNameRaw amountRaw newId st bal
    hcanon hne hname h1 h2 hdup hfunds
  rw [hcreate]
  have hcancel := cancel_dice_success_eval newId creator
    ({ st with dice_bets := st.dice_bets ++
        [{ id := newId, creator := creator, creatorName := sTrim creatorNameRaw,
           amount := as_money amountRaw, status := Status.waiting,
           creatorDebited := true }] })
    (setBal (setBal bal creator (as_money (getBal bal creator))) creator
       (as_money (as_money (getBal bal creator) - as_money amountRaw)))
    ({ id := newId, creator := creator, creatorName := sTrim creatorNameRaw,
       amount := as_money amountRaw, status := Status.waiting, creatorDebited := true })
    hid hidne hcanon hne
    (findBet_append_last hfresh rfl) rfl rfl rfl
  rw [hcancel]
  have hgb : getBal
      (setBal (setBal bal creator (as_money (getBal bal creator))) creator
        (as_money (as_money (getBal bal creator) - as_money amountRaw))) creator =
      as_money (getBal bal creator) - as_money amountRaw := by
    rw [getBal_setBal_same, as_money_eq_self hsub]
  have hval : as_money
      (as_money (getBal
        (setBal (setBal bal creator (as_money (getBal bal creator))) creator
          (as_money (as_money (getBal bal creator) - as_money amountRaw))) creator) +
        as_money (as_money amountRaw)) = as_money (getBal bal creator) := by
    rw [hgb, as_money_eq_self hsub, as_money_eq_self hA, sub_add_cancel,
      as_money_eq_self hc0]
  refine ⟨?_, ?_, ?_, ?_⟩
  · dsimp only
    exact popBet_append_last hfresh rfl
  · dsimp only
    rw [hval]
    exact setBal_apply_same _ _ _
  · intro hm
    dsimp only
    rw [hval, as_money_eq_self hm]
    exact setBal_apply_same _ _ _
  · dsimp only
    rw [hval, as_money_eq_self hA]

/-- The empty games document. -/
def emptyGames : GamesState :=
  { dice_bets := [], dice_history := [], blackjack_matches := [], blackjack_history := [] }

/-- Balances: alice holds $10.00 exactly. -/
def aliceTen : Balances := fun u => if u = "alice" then some 10 else none

theorem c5_create_cancel_roundtrip_witness :
    (api_cancel_dice_bet "DICE1" "alice"
        (api_create_dice_bet "alice" "Alice" 5 "DICE1" emptyGames aliceTen).2.1
        (api_create_dice_bet "alice" "Alice" 5 "DICE1" emptyGames aliceTen).2.2).2.1.dice_bets
      = emptyGames.dice_bets ∧
    (api_cancel_dice_bet "DICE1" "alice"
        (api_create_dice_bet "alice" "Alice" 5 "DICE1" emptyGames aliceTen).2.1
        (api_create_dice_bet "alice" "Alice" 5 "DICE1" emptyGames aliceTen).2.2).2.2 "alice"
      = some (as_money (getBal aliceTen "alice")) ∧
    (isMoney (getBal aliceTen "alice") →
      (api_cancel_dice_bet "DICE1" "alice"
          (api_create_dice_bet "alice" "Alice" 5 "DICE1" emptyGames aliceTen).2.1
          (api_create_dice_bet "alice" "Alice" 5 "DICE1" emptyGames aliceTen).2.2).2.2 "alice"
        = some (getBal aliceTen "alice")) ∧
    (api_cancel_dice_bet "DICE1" "alice"
        (api_create_dice_bet "alice" "Alice" 5 "DICE1" emptyGames aliceTen).2.1
        (api_create_dice_bet "alice" "Alice" 5 "DICE1" emptyGames aliceTen).2.2).1
      = CancelResult.cancelled (as_money 5) (as_money (getBal aliceTen "alice")) :=
  c5_create_cancel_roundtrip "alice" "Alice" 5 "DICE1" emptyGames aliceTen
    (by decide) (by decide) (by decide)
    (by norm_num [as_money, round_eq]) (by norm_num [as_money, round_eq])
    (by decide)
    (by norm_num +decide [as_money, round_eq, getBal, aliceTen])
    (by decide) (by decide) (by decide)

/-- Balances: alice holds $10.004, a non-2-decimal value reachable through the
HTTP balance-update path, which stores unrounded amounts. -/
def aliceOffCents : Balances := fun u => if u = "alice" then some (10004/1000) else none

/-- C5 counterexample: with pre-create balance $10.004, create-then-cancel of a
$5 dice bet leaves alice with exactly $10.00 (ensure_balance_user rounds the
stored balance on first touch), not her exact pre-create value $10.004. -/
theorem c5_counterexample_exact_restore_fails :
    (api_cancel_dice_bet "DICE1" "alice"
        (api_create_dice_bet "alice" "Alice" 5 "DICE1" emptyGames aliceOffCents).2.1
        (api_create_dice_bet "alice" "Alice" 5 "DICE1" emptyGames aliceOffCents).2.2).2.2
        "alice" = some 10 ∧
      (10 : ℚ) ≠ 10004/1000 := by
  constructor
  · norm_num +decide [api_create_dice_bet, api_cancel_dice_bet, ensure_balance_user,
      as_money, round_eq, getBal, setBal, findBet, popBet, trimLower, lowerTrim,
      sTrim, sToLower, emptyGames, aliceOffCents]
  · norm_num

/-! ### C4 -/

/-- C4 (amended): for a resolved wager whose stake `A = as_money(amount)` was
escrowed from both sides (`creatorDebited` set, opponent debited in the call),
between parties neither of whom is literally named "tie": on a decisive
outcome the winner is credited exactly `A * 2` and the loser nothing, so
relative to the `as_money`-rounded pre-call balances — which
`ensure_balance_user` installs at resolution time, and which equal the stored
balances whenever those are 2-decimal money values — the winner's net is `+A`
and the loser's net is `-A`; on a tie each side is credited
`as_money (A * (1/2))`: the half-stake rounded to the nearest cent, which
equals `A * (1/2)` exactly precisely when A is an even number of cents.
A creator literally named "tie" collides with the code's tie sentinel and is
credited the full `A * 2` on a tied wager (third conjunct).  Stated for the
dice accept and the blackjack join; the last conjunct is the even-cents
rounding fact. -/
theorem c4_wager_resolution_payouts :
    (∀ (betIdRaw opponentRaw opponentNameRaw : String) (creatorRoll opponentRoll : ℕ)
        (st : GamesState) (bal : Balances) (bet : Bet)
        (R : AcceptResult × GamesState × Balances),
      R = api_accept_dice_bet betIdRaw opponentRaw opponentNameRaw creatorRoll
        opponentRoll st bal →
      sTrim betIdRaw = betIdRaw → betIdRaw ≠ "" →
      Canon opponentRaw → opponentRaw ≠ "" → sTrim opponentNameRaw ≠ "" →
      findBet betIdRaw st.dice_bets = some bet →
      bet.status = Status.waiting → Canon bet.creator →
      bet.creator ≠ opponentRaw → bet.creatorDebited = true →
      bet.creator ≠ "tie" → opponentRaw ≠ "tie" →
      ¬ as_money (getBal bal opponentRaw) < as_money bet.amount →
      ((opponentRoll < creatorRoll →
          (∃ e, R.1 = AcceptResult.completed e) ∧
          R.2.2 bet.creator =
            some (as_money (getBal bal bet.creator) + as_money bet.amount * 2) ∧
          R.2.2 opponentRaw =
            some (as_money (getBal bal opponentRaw) - as_money bet.amount)) ∧
       (creatorRoll < opponentRoll →
          (∃ e, R.1 = AcceptResult.completed e) ∧
          R.2.2 bet.creator = some (as_money (getBal bal bet.creator)) ∧
          R.2.2 opponentRaw =
            some (as_money (getBal bal opponentRaw) - as_money bet.amount +
              as_money bet.amount * 2)) ∧
       (creatorRoll = opponentRoll →
          (∃ e, R.1 = AcceptResult.completed e) ∧
          R.2.2 bet.creator =
            some (as_money (getBal bal bet.creator) +
              as_money (as_money bet.amount * (1/2))) ∧
          R.2.2 opponentRaw =
            some (as_money (getBal bal opponentRaw) - as_money bet.amount +
              as_money (as_money bet.amount * (1/2)))))) ∧
    (∀ (matchIdRaw opponentRaw opponentNameRaw : String) (creatorScore opponentScore : ℕ)
        (st : GamesState) (bal : Balances) (m : Bet)
        (R : AcceptResult × GamesState × Balances),
      R = api_join_blackjack_match matchIdRaw opponentRaw opponentNameRaw creatorScore
        opponentScore st bal →
      sTrim matchIdRaw = matchIdRaw → matchIdRaw ≠ "" →
      Canon opponentRaw → opponentRaw ≠ "" → sTrim opponentNameRaw ≠ "" →
      findBet matchIdRaw st.blackjack_matches = some m →
      m.status = Status.waiting → Canon m.creator →
      m.creator ≠ opponentRaw → m.creatorDebited = true →
      m.creator ≠ "tie" → opponentRaw ≠ "tie" →
      ¬ as_money (getBal bal opponentRaw) < as_money m.amount →
      ((21 < creatorScore → 21 < opponentScore →
          (∃ e, R.1 = AcceptResult.completed e) ∧
          R.2.2 m.creator =
            some (as_money (getBal bal m.creator) +
              as_money (as_money m.amount * (1/2))) ∧
          R.2.2 opponentRaw =
            some (as_money (getBal bal opponentRaw) - as_money m.amount +
              as_money (as_money m.amount * (1/2)))) ∧
       (21 < creatorScore → opponentScore ≤ 21 →
          (∃ e, R.1 = AcceptResult.completed e) ∧
          R.2.2 m.creator = some (as_money (getBal bal m.creator)) ∧
          R.2.2 opponentRaw =
            some (as_money (getBal bal opponentRaw) - as_money m.amount +
              as_money m.amount * 2)) ∧
       (creatorScore ≤ 21 → 21 < opponentScore →
          (∃ e, R.1 = AcceptResult.completed e) ∧
          R.2.2 m.creator =
            some (as_money (getBal bal m.creator) + as_money m.amount * 2) ∧
          R.2.2 opponentRaw =
            some (as_money (getBal bal opponentRaw) - as_money m.amount)) ∧
       (creatorScore ≤ 21 → opponentScore ≤ 21 →
          ((opponentScore < creatorScore →
              (∃ e, R.1 = AcceptResult.completed e) ∧
              R.2.2 m.creator =
                some (as_money (getBal bal m.creator) + as_money m.amount * 2) ∧
              R.2.2 opponentRaw =
                some (as_money (getBal bal opponentRaw) - as_money m.amount)) ∧
           (creatorScore < opponentScore →
              (∃ e, R.1 = AcceptResult.completed e) ∧
              R.2.2 m.creator = some (as_money (getBal bal m.creator)) ∧
              R.2.2 opponentRaw =
                some (as_money (getBal bal opponentRaw) - as_money m.amount +
                  as_money m.amount * 2)) ∧
           (creatorScore = opponentScore →
              (∃ e, R.1 = AcceptResult.completed e) ∧
              R.2.2 m.creator =
                some (as_money (getBal bal m.creator) +
                  as_money (as_money m.amount * (1/2))) ∧
              R.2.2 opponentRaw =
                some (as_money (getBal bal opponentRaw) - as_money m.amount +
                  as_money (as_money m.amount * (1/2)))))))) ∧
    (∀ (betIdRaw opponentRaw opponentNameRaw : String) (creatorRoll opponentRoll : ℕ)
        (st : GamesState) (bal : Balances) (bet : Bet)
        (R : AcceptResult × GamesState × Balances),
      R = api_accept_dice_bet betIdRaw opponentRaw opponentNameRaw creatorRoll
        opponentRoll st bal →
      sTrim betIdRaw = betIdRaw → betIdRaw ≠ "" →
      Canon opponentRaw → opponentRaw ≠ "" → sTrim opponentNameRaw ≠ "" →
      findBet betIdRaw st.dice_bets = some bet →
      bet.status = Status.waiting → bet.creator = "tie" →
      bet.creatorDebited = true → opponentRaw ≠ "tie" →
      ¬ as_money (getBal bal opponentRaw) < as_money bet.amount →
      creatorRoll = opponentRoll →
      (∃ e, R.1 = AcceptResult.completed e) ∧
      R.2.2 bet.creator =
        some (as_money (getBal bal bet.creator) + as_money bet.amount * 2) ∧
      R.2.2 opponentRaw =
        some (as_money (getBal bal opponentRaw) - as_money bet.amount)) ∧
    (∀ k : ℤ, k % 2 = 0 →
      as_money (((k : ℚ) / 100) * (1 / 2)) = ((k : ℚ) / 100) * (1 / 2)) := by
  refine ⟨?_, ?_, ?_, ?_⟩
  · intro betIdRaw opponentRaw opponentNameRaw creatorRoll opponentRoll st bal bet R hR
      hbid hbidne hoppC hoppne hnm hfound hwait hcC hneq hdeb hct hot hfunds
    subst hR
    have hneq' : opponentRaw ≠ bet.creator := fun hh => hneq hh.symm
    have hct' : "tie" ≠ bet.creator := fun hh => hct hh.symm
    have hot' : "tie" ≠ opponentRaw := fun hh => hot hh.symm
    have hA : isMoney (as_money bet.amount) := isMoney_as_money bet.amount
    have hcm : isMoney (as_money (getBal bal bet.creator)) := isMoney_as_money _
    have hom : isMoney (as_money (getBal bal opponentRaw)) := isMoney_as_money _
    refine ⟨?_, ?_, ?_⟩
    · intro hroll
      have h1 : creatorRoll > opponentRoll := hroll
      have h2 : ¬ (opponentRoll > creatorRoll) := by omega
      refine ⟨?_, ?_, ?_⟩ <;>
        simp [api_accept_dice_bet, ensure_balance_user, hbid, hbidne, hoppne, hnm,
          hoppC.trimLower_eq,
          hoppC.lowerTrim_eq, hcC.lowerTrim_eq, hfound, hwait, hdeb, hneq, hneq',
          getBal_setBal_same, getBal_setBal_ne, setBal_apply_same, setBal_apply_ne,
          hfunds, h1, h2,
          as_money_eq_self hA.mul_two, as_money_eq_self (hcm.add hA.mul_two),
          as_money_eq_self (hom.sub hA)]
    · intro hroll
      have h1 : ¬ (creatorRoll > opponentRoll) := by omega
      have h2 : opponentRoll > creatorRoll := hroll
      refine ⟨?_, ?_, ?_⟩ <;>
        simp [api_accept_dice_bet, ensure_balance_user, hbid, hbidne, hoppne, hnm,
          hoppC.trimLower_eq,
          hoppC.lowerTrim_eq, hcC.lowerTrim_eq, hfound, hwait, hdeb, hneq, hneq',
          getBal_setBal_same, getBal_setBal_ne, setBal_apply_same, setBal_apply_ne,
          hfunds, h1, h2,
          as_money_eq_self hA.mul_two,
          as_money_eq_self ((hom.sub hA).add hA.mul_two),
          as_money_eq_self (hom.sub hA)]
    · intro hroll
      have h1 : ¬ (creatorRoll > opponentRoll) := by omega
      have h2 : ¬ (opponentRoll > creatorRoll) := by omega
      refine ⟨?_, ?_, ?_⟩ <;>
        simp [api_accept_dice_bet, ensure_balance_user, hbid, hbidne, hoppne, hnm,
          hoppC.trimLower_eq,
          hoppC.lowerTrim_eq, hcC.lowerTrim_eq, hfound, hwait, hdeb, hneq, hneq',
          hct', hot',
          getBal_setBal_same, getBal_setBal_ne, setBal_apply_same, setBal_apply_ne,
          hfunds, h1, h2,
          as_money_eq_self (hcm.add (isMoney_as_money (as_money bet.amount * 2⁻¹))),
          as_money_eq_self ((hom.sub hA).add
            (isMoney_as_money (as_money bet.amount * 2⁻¹))),
          as_money_eq_self (hom.sub hA)]
  · intro matchIdRaw opponentRaw opponentNameRaw creatorScore opponentScore st bal m R hR
      hbid hbidne hoppC hoppne hnm hfound hwait hcC hneq hdeb hct hot hfunds
    subst hR
    have hneq' : opponentRaw ≠ m.creator := fun hh => hneq hh.symm
    have hct' : "tie" ≠ m.creator := fun hh => hct hh.symm
    have hot' : "tie" ≠ opponentRaw := fun hh => hot hh.symm
    have hA : isMoney (as_money m.amount) := isMoney_as_money m.amount
    have hcm : isMoney (as_money (getBal bal m.creator)) := isMoney_as_money _
    have hom : isMoney (as_money (getBal bal opponentRaw)) := isMoney_as_money _
    refine ⟨?_, ?_, ?_, ?_⟩
    · intro hs1 hs2
      refine ⟨?_, ?_, ?_⟩ <;>
        simp [api_join_blackjack_match, ensure_balance_user, hbid, hbidne, hoppne, hnm,
          hoppC.trimLower_eq,
          hoppC.lowerTrim_eq, hcC.lowerTrim_eq, hfound, hwait, hdeb, hneq, hneq',
          hct', hot',
          getBal_setBal_same, getBal_setBal_ne, setBal_apply_same, setBal_apply_ne,
          hfunds, hs1, hs2,
          as_money_eq_self (hcm.add (isMoney_as_money (as_money m.amount * 2⁻¹))),
          as_money_eq_self ((hom.sub hA).add
            (isMoney_as_money (as_money m.amount * 2⁻¹))),
          as_money_eq_self (hom.sub hA)]
    · intro hs1 hs2
      have h2 : ¬ (21 < opponentScore) := by omega
      refine ⟨?_, ?_, ?_⟩ <;>
        simp [api_join_blackjack_match, ensure_balance_user, hbid, hbidne, hoppne, hnm,
          hoppC.trimLower_eq,
          hoppC.lowerTrim_eq, hcC.lowerTrim_eq, hfound, hwait, hdeb, hneq, hneq',
          getBal_setBal_same, getBal_setBal_ne, setBal_apply_same, setBal_apply_ne,
          hfunds, hs1, h2,
          as_money_eq_self hA.mul_two,
          as_money_eq_self ((hom.sub hA).add hA.mul_two),
          as_money_eq_self (hom.sub hA)]
    · intro hs1 hs2
      have h1 : ¬ (21 < creatorScore) := by omega
      refine ⟨?_, ?_, ?_⟩ <;>
        simp [api_join_blackjack_match, ensure_balance_user, hbid, hbidne, hoppne, hnm,
          hoppC.trimLower_eq,
          hoppC.lowerTrim_eq, hcC.lowerTrim_eq, hfound, hwait, hdeb, hneq, hneq',
          getBal_setBal_same, getBal_setBal_ne, setBal_apply_same, setBal_apply_ne,
          hfunds, h1, hs2,
          as_money_eq_self hA.mul_two, as_money_eq_self (hcm.add hA.mul_two),
          as_money_eq_self (hom.sub hA)]
    · intro hs1 hs2
      have h1 : ¬ (21 < creatorScore) := by omega
      have h2 : ¬ (21 < opponentScore) := by omega
      refine ⟨?_, ?_, ?_⟩
      · intro hlt
        have h3 : creatorScore > opponentScore := hlt
        refine ⟨?_, ?_, ?_⟩ <;>
          simp [api_join_blackjack_match, ensure_balance_user, hbid, hbidne, hoppne, hnm,
          hoppC.trimLower_eq,
            hoppC.lowerTrim_eq, hcC.lowerTrim_eq, hfound, hwait, hdeb, hneq, hneq',
            getBal_setBal_same, getBal_setBal_ne, setBal_apply_same, setBal_apply_ne,
            hfunds, h1, h2, h3,
            as_money_eq_self hA.mul_two, as_money_eq_self (hcm.add hA.mul_two),
            as_money_eq_self (hom.sub hA)]
      · intro hlt
        have h3 : ¬ (creatorScore > opponentScore) := by omega
        have h4 : opponentScore > creatorScore := hlt
        refine ⟨?_, ?_, ?_⟩ <;>
          simp [api_join_blackjack_match, ensure_balance_user, hbid, hbidne, hoppne, hnm,
          hoppC.trimLower_eq,
            hoppC.lowerTrim_eq, hcC.lowerTrim_eq, hfound, hwait, hdeb, hneq, hneq',
            getBal_setBal_same, getBal_setBal_ne, setBal_apply_same, setBal_apply_ne,
            hfunds, h1, h2, h3, h4,
            as_money_eq_self hA.mul_two,
            as_money_eq_self ((hom.sub hA).add hA.mul_two),
            as_money_eq_self (hom.sub hA)]
      · intro heq
        have h3 : ¬ (creatorScore > opponentScore) := by omega
        have h4 : ¬ (opponentScore > creatorScore) := by omega
        refine ⟨?_, ?_, ?_⟩ <;>
          simp [api_join_blackjack_match, ensure_balance_user, hbid, hbidne, hoppne, hnm,
          hoppC.trimLower_eq,
            hoppC.lowerTrim_eq, hcC.lowerTrim_eq, hfound, hwait, hdeb, hneq, hneq',
            hct', hot',
            getBal_setBal_same, getBal_setBal_ne, setBal_apply_same, setBal_apply_ne,
            hfunds, h1, h2, h3, h4,
            as_money_eq_self (hcm.add (isMoney_as_money (as_money m.amount * 2⁻¹))),
            as_money_eq_self ((hom.sub hA).add
              (isMoney_as_money (as_money m.amount * 2⁻¹))),
            as_money_eq_self (hom.sub hA)]
  · intro betIdRaw opponentRaw opponentNameRaw creatorRoll opponentRoll st bal bet R hR
      hbid hbidne hoppC hoppne hnm hfound hwait htie hdeb hot hfunds hroll
    subst hR
    have hot' : "tie" ≠ opponentRaw := fun hh => hot hh.symm
    have ltie : lowerTrim "tie" = "tie" := by decide
    have hA : isMoney (as_money bet.amount) := isMoney_as_money bet.amount
    have hcm : isMoney (as_money (getBal bal "tie")) := isMoney_as_money _
    have hom : isMoney (as_money (getBal bal opponentRaw)) := isMoney_as_money _
    have h1 : ¬ (creatorRoll > opponentRoll) := by omega
    have h2 : ¬ (opponentRoll > creatorRoll) := by omega
    refine ⟨?_, ?_, ?_⟩ <;>
      simp [api_accept_dice_bet, ensure_balance_user, hbid, hbidne, hoppne, hnm,
        hoppC.trimLower_eq, hoppC.lowerTrim_eq, htie, ltie, hfound, hwait, hdeb,
        hot, hot', getBal_setBal_same, getBal_setBal_ne, setBal_apply_same,
        setBal_apply_ne,
        hfunds, h1, h2,
        as_money_eq_self hA.mul_two, as_money_eq_self (hcm.add hA.mul_two),
        as_money_eq_self (hom.sub hA)]
  · intro k hk
    obtain ⟨mhalf, rfl⟩ := Int.dvd_of_emod_eq_zero hk
    have he : (((2 * mhalf : ℤ) : ℚ) / 100) * (1 / 2) = (mhalf : ℚ) / 100 := by
      push_cast
      ring
    rw [he]
    exact as_money_int_div mhalf

theorem c4_wager_resolution_payouts_witness :
    (api_accept_dice_bet "DICE_1" "bob" "Bob" 4 2 gamesWithAliceBet aliceBob).2.2 "alice" =
        some (as_money (getBal aliceBob "alice") + as_money aliceWaitingBet.amount * 2) ∧
      (api_accept_dice_bet "DICE_1" "bob" "Bob" 4 2 gamesWithAliceBet aliceBob).2.2 "bob" =
        some (as_money (getBal aliceBob "bob") - as_money aliceWaitingBet.amount) := by
  have h := (c4_wager_resolution_payouts.1 "DICE_1" "bob" "Bob" 4 2 gamesWithAliceBet
    aliceBob aliceWaitingBet _ rfl (by decide) (by decide) (by decide) (by decide)
    (by decide) rfl rfl (by decide) (by decide) rfl (by decide) (by decide)
    (by norm_num +decide [as_money, round_eq, getBal, aliceBob, aliceWaitingBet])).1
    (by decide)
  exact ⟨h.2.1, h.2.2⟩

/-- A waiting, already-escrowed dice bet by alice with the odd-cent stake $1.01. -/
def oddCentBet : Bet :=
  { id := "DICE_9", creator := "alice", creatorName := "Alice", amount := 101/100,
    status := Status.waiting, creatorDebited := true }

/-- Games document holding only the odd-cent bet. -/
def gamesOddCent : GamesState :=
  { dice_bets := [oddCentBet], dice_history := [], blackjack_matches := [],
    blackjack_history := [] }

/-- Balances after alice's $1.01 escrow: alice $8.99 (pre-wager $10.00), bob $10. -/
def oddCentBal : Balances :=
  fun u => if u = "alice" then some (899/100) else if u = "bob" then some 10 else none

/-- C4 counterexample: a tied dice wager with stake $1.01.  Alice staked $1.01
from a pre-wager balance of $10.00; the claim says a tie credits each side
exactly `0.5 × 1.01 = $0.505`, so alice would end at `$9.495`.  The code
credits `as_money(1.01 * 0.5) = $0.51` and alice ends at `$9.50`. -/
theorem c4_counterexample_tie_payout_rounded :
    (api_accept_dice_bet "DICE_9" "bob" "Bob" 3 3 gamesOddCent oddCentBal).2.2 "alice" =
        some (19/2) ∧
      (19/2 : ℚ) ≠ 10 - (101/100) * (1/2) := by
  constructor
  · norm_num +decide [api_accept_dice_bet, ensure_balance_user, as_money, round_eq,
      getBal, setBal, findBet, popBet, trimLower, lowerTrim, sTrim, sToLower,
      gamesOddCent, oddCentBet, oddCentBal]
  · norm_num

end Pluxo
